import Mathlib

/-!
Verification development for the eventMngt Django REST application
(events app: models.py, serializers.py, views.py and the project urls.py).

The embedding is shallow: database rows become Lean structures, the
database becomes explicit lists of rows, and each request handler becomes
a function from a database state (and request data) to a new database
state and an HTTP response.  Framework-managed audit columns
(created_at / updated_at) and optional profile columns that no endpoint
reads (phone, bio, profile_picture) are not modelled; no handler or claim
refers to them.
-/

namespace EventMngt

/-- JSON values, used for the bodies of HTTP responses exactly as the
views build them (hand-written dicts for auth, serializer `all fields`
output for Event / Venue / Booking). -/
inductive Json where
  | null : Json
  | str : String → Json
  | num : Int → Json
  | obj : List (String × Json) → Json
  | arr : List Json → Json

/-- HTTP responses returned by the views.  `serverError` is produced only
by URL dispatch when a bound view is called with arguments its signature
does not accept (Python raises TypeError, surfaced as HTTP 500). -/
inductive Resp where
  | ok : Json → Resp
  | created : Json → Resp
  | noContent : Json → Resp
  | badRequest : Json → Resp
  | notFound : Json → Resp
  | serverError : String → Resp

/-- The HTTP status code of a response. -/
def Resp.code : Resp → Nat
  | .ok _ => 200
  | .created _ => 201
  | .noContent _ => 204
  | .badRequest _ => 400
  | .notFound _ => 404
  | .serverError _ => 500

/-- A row of the User table (models.py, class User).  `password` stores
the salted hash written by `set_password`, never the raw password. -/
structure User where
  user_id : Nat
  name : String
  email : String
  password : String
  role : String
  status : String
  is_active : Bool
  is_staff : Bool
deriving Repr, DecidableEq

/-- A row of the Venue table (models.py, class Venue). -/
structure Venue where
  venue_id : Nat
  name : String
  address : String
  capacity : Nat
deriving Repr, DecidableEq

/-- A row of the Event table (models.py, class Event).  Dates and times
are abstracted to naturals ordered as the calendar orders them; `venue`
is nullable (`on_delete=SET_NULL`), `organizer` is a required foreign
key to User. -/
structure Event where
  event_id : Nat
  title : String
  description : String
  organizer : Nat
  category : String
  venue : Option Nat
  start_date : Nat
  start_time : Nat
  end_date : Nat
  end_time : Nat
  ticket_price : Int
  capacity : Nat
  status : String
deriving Repr, DecidableEq

/-- A row of the Booking table (models.py, class Booking). -/
structure Booking where
  booking_id : Nat
  customer : Nat
  event : Nat
  tickets_reserved : Nat
  status : String
deriving Repr, DecidableEq

/-- The database state: the four tables the claims touch, plus the
auto-increment counters of their primary keys. -/
structure DB where
  users : List User
  venues : List Venue
  events : List Event
  bookings : List Booking
  nextUserId : Nat
  nextVenueId : Nat
  nextEventId : Nat
  nextBookingId : Nat
deriving Repr, DecidableEq

/-- ROLE_CHOICES of the User model. -/
def ROLE_CHOICES : List String := ["admin", "organizer", "customer"]

/-- STATUS_CHOICES of the User model. -/
def USER_STATUS_CHOICES : List String := ["active", "suspended"]

/-- VENUE_CHOICES of the Venue model. -/
def VENUE_CHOICES : List String := ["pc", "falettis", "alhamra", "expo", "royalpalm"]

/-- CATEGORY_CHOICES of the Event model. -/
def CATEGORY_CHOICES : List String := ["music", "sports", "education", "technology", "business"]

/-- STATUS_CHOICES of the Event model. -/
def EVENT_STATUS_CHOICES : List String := ["upcoming", "ongoing", "completed", "cancelled"]

/-- STATUS_CHOICES of the Booking model. -/
def BOOKING_STATUS_CHOICES : List String := ["pending", "confirmed", "cancelled"]

/-- Password hashing (`User.set_password`): an injective function whose
output never equals its input, standing in for Django's salted PBKDF2
hasher. -/
def hashPassword (p : String) : String := "pbkdf2_sha256$" ++ p

/-- Password verification (`User.check_password`): the stored hash must
equal the hash of the submitted raw password. -/
def checkPassword (raw hashed : String) : Bool := hashed == hashPassword raw

/-- Python str.capitalize, used in the friendly messages of the auth
views. -/
def capitalize (s : String) : String :=
  match s.data with
  | [] => ""
  | c :: rest => String.mk (c.toUpper :: rest.map Char.toLower)

/-- Minimal stand-in for EmailField format validation: the address must
contain an at sign. -/
def emailOk (e : String) : Bool := e.contains '@'

/-- The hand-picked public user dict built by register_view and
login_view: id, name, email, role — nothing else. -/
def userPublicJson (u : User) : Json :=
  Json.obj [("id", Json.num (u.user_id : Int)), ("name", Json.str u.name),
            ("email", Json.str u.email), ("role", Json.str u.role)]

/-- Request body of POST /api/register/ as RegisterSerializer sees it:
each declared field either present or absent. -/
structure RegisterData where
  name : Option String
  email : Option String
  password : Option String
  role : Option String
deriving Repr, DecidableEq

/-- RegisterSerializer.is_valid: name, email, password, role are all
required; the email must be well-formed and not already used (unique
column); the role must be one of ROLE_CHOICES. -/
def registerValid (db : DB) (d : RegisterData) : Bool :=
  d.name.isSome &&
  (match d.email with
   | some e => emailOk e && !(db.users.any (fun u => u.email == e))
   | none => false) &&
  d.password.isSome &&
  (match d.role with
   | some r => ROLE_CHOICES.contains r
   | none => false)

/-- views.register_view: validate, then create_user (hash the password,
status defaults to active, is_active true, is_staff false) and answer
201 with the public fields; otherwise answer 400. -/
def register_view (db : DB) (d : RegisterData) : DB × Resp :=
  if registerValid db d then
    let u : User :=
      { user_id := db.nextUserId
        name := d.name.getD ""
        email := d.email.getD ""
        password := hashPassword (d.password.getD "")
        role := d.role.getD ""
        status := "active"
        is_active := true
        is_staff := false }
    ({ db with users := db.users ++ [u], nextUserId := db.nextUserId + 1 },
     Resp.created (Json.obj
       [("message", Json.str (capitalize u.role ++ " registered successfully!")),
        ("user", userPublicJson u)]))
  else (db, Resp.badRequest (Json.obj []))

/-- django.contrib.auth.authenticate with the default ModelBackend: look
the user up by the USERNAME_FIELD (email), check the password hash, and
require is_active. -/
def authenticate (db : DB) (email password : String) : Option User :=
  match db.users.find? (fun u => u.email == email) with
  | none => none
  | some u => if checkPassword password u.password && u.is_active then some u else none

/-- LoginSerializer.validate: authenticate; no user means the generic
credential error; a non-active status means the suspension error;
otherwise the user object is attached to the validated data. -/
def loginValidate (db : DB) (email password : String) : Except String User :=
  match authenticate db email password with
  | none => Except.error "Invalid email or password"
  | some u =>
    if u.status ≠ "active" then Except.error "Your account is suspended"
    else Except.ok u

/-- views.login_view: on valid data answer 200 with the public user
fields; on a ValidationError answer 400 with DRF's non_field_errors
shape. -/
def login_view (db : DB) (email password : String) : Resp :=
  match loginValidate db email password with
  | Except.ok u =>
      Resp.ok (Json.obj
        [("message", Json.str (capitalize u.role ++ " logged in successfully!")),
         ("user", userPublicJson u)])
  | Except.error m =>
      Resp.badRequest (Json.obj [("non_field_errors", Json.arr [Json.str m])])

/-- Request body for the Event endpoints as EventSerializer sees it: each
writable field present or absent; a present `venue` may itself be null
(the field allows null). -/
structure EventData where
  title : Option String
  description : Option String
  organizer : Option Nat
  category : Option String
  venue : Option (Option Nat)
  start_date : Option Nat
  start_time : Option Nat
  end_date : Option Nat
  end_time : Option Nat
  ticket_price : Option Int
  capacity : Option Nat
  status : Option String
deriving Repr, DecidableEq

/-- The Event fields that are required on a non-partial request: every
model field without a default and not nullable (title, description,
organizer, category, the four date and time fields, capacity).  venue
(nullable), ticket_price and status (model defaults) are optional. -/
def eventRequiredOk (d : EventData) : Bool :=
  d.title.isSome && d.description.isSome && d.organizer.isSome && d.category.isSome &&
  d.start_date.isSome && d.start_time.isSome && d.end_date.isSome && d.end_time.isSome &&
  d.capacity.isSome

/-- Per-field validation of supplied Event fields: enum membership for
category and status, existing foreign keys for organizer and venue.  No
check relates the start date or time to the end date or time. -/
def eventFieldsOk (db : DB) (d : EventData) : Bool :=
  (match d.category with
   | some c => CATEGORY_CHOICES.contains c
   | none => true) &&
  (match d.status with
   | some s => EVENT_STATUS_CHOICES.contains s
   | none => true) &&
  (match d.organizer with
   | some o => db.users.any (fun u => u.user_id == o)
   | none => true) &&
  (match d.venue with
   | some (some vv) => db.venues.any (fun v => v.venue_id == vv)
   | _ => true)

/-- The UniqueTogetherValidator that ModelSerializer derives from the
Event Meta unique_together (title, start_date): missing fields are
filled from the instance being updated, and the instance itself is
excluded from the clash search. -/
def eventUniqueOk (db : DB) (inst : Option Event) (d : EventData) : Bool :=
  let t := d.title.getD (match inst with | some i => i.title | none => "")
  let sd := d.start_date.getD (match inst with | some i => i.start_date | none => 0)
  !(db.events.any (fun x =>
      (match inst with | some i => x.event_id != i.event_id | none => true) &&
      x.title == t && x.start_date == sd))

/-- EventSerializer.is_valid against an optional instance: on a partial
request missing fields are skipped, otherwise the required fields must
all be present; supplied fields are validated and the unique-together
constraint checked. -/
def eventDataValid (db : DB) (inst : Option Event) (partialFlag : Bool) (d : EventData) : Bool :=
  (partialFlag || eventRequiredOk d) && eventFieldsOk db d && eventUniqueOk db inst d

/-- serializer.save() on an update: set exactly the supplied fields on
the instance, leaving every omitted field at its current value (DRF puts
only supplied fields into validated_data on updates). -/
def applyEventData (e : Event) (d : EventData) : Event :=
  { e with
    title := d.title.getD e.title
    description := d.description.getD e.description
    organizer := d.organizer.getD e.organizer
    category := d.category.getD e.category
    venue := d.venue.getD e.venue
    start_date := d.start_date.getD e.start_date
    start_time := d.start_time.getD e.start_time
    end_date := d.end_date.getD e.end_date
    end_time := d.end_time.getD e.end_time
    ticket_price := d.ticket_price.getD e.ticket_price
    capacity := d.capacity.getD e.capacity
    status := d.status.getD e.status }

/-- serializer.save() on a create: a fresh row with the next primary
key; omitted optional fields take the model defaults (venue null,
ticket_price 0, status upcoming). -/
def buildEvent (db : DB) (d : EventData) : Event :=
  { event_id := db.nextEventId
    title := d.title.getD ""
    description := d.description.getD ""
    organizer := d.organizer.getD 0
    category := d.category.getD ""
    venue := d.venue.getD none
    start_date := d.start_date.getD 0
    start_time := d.start_time.getD 0
    end_date := d.end_date.getD 0
    end_time := d.end_time.getD 0
    ticket_price := d.ticket_price.getD 0
    capacity := d.capacity.getD 0
    status := d.status.getD "upcoming" }

/-- EventSerializer output (`all fields` policy): every model column of
the row. -/
def eventToJson (e : Event) : Json :=
  Json.obj [("event_id", Json.num (e.event_id : Int)),
            ("title", Json.str e.title),
            ("description", Json.str e.description),
            ("organizer", Json.num (e.organizer : Int)),
            ("category", Json.str e.category),
            ("venue", match e.venue with | some v => Json.num (v : Int) | none => Json.null),
            ("start_date", Json.num (e.start_date : Int)),
            ("start_time", Json.num (e.start_time : Int)),
            ("end_date", Json.num (e.end_date : Int)),
            ("end_time", Json.num (e.end_time : Int)),
            ("ticket_price", Json.num e.ticket_price),
            ("capacity", Json.num (e.capacity : Int)),
            ("status", Json.str e.status)]

/-- views.create_event. -/
def create_event (db : DB) (d : EventData) : DB × Resp :=
  if eventDataValid db none false d then
    let e := buildEvent db d
    ({ db with events := db.events ++ [e], nextEventId := db.nextEventId + 1 },
     Resp.created (eventToJson e))
  else (db, Resp.badRequest (Json.obj []))

/-- views.get_events (the list view: no primary-key parameter). -/
def get_events (db : DB) : Resp :=
  Resp.ok (Json.arr (db.events.map eventToJson))

/-- views.get_event (the single-event view). -/
def get_event (db : DB) (pk : Nat) : Resp :=
  match db.events.find? (fun e => e.event_id == pk) with
  | none => Resp.notFound (Json.obj [("error", Json.str "Event not found")])
  | some e => Resp.ok (eventToJson e)

/-- views.update_event (PUT, full update). -/
def update_event (db : DB) (pk : Nat) (d : EventData) : DB × Resp :=
  match db.events.find? (fun e => e.event_id == pk) with
  | none => (db, Resp.notFound (Json.obj [("error", Json.str "Event not found")]))
  | some e =>
    if eventDataValid db (some e) false d then
      let e2 := applyEventData e d
      ({ db with events := db.events.map (fun x => if x.event_id == pk then e2 else x) },
       Resp.ok (eventToJson e2))
    else (db, Resp.badRequest (Json.obj []))

/-- views.partial_update_event (PATCH, partial=True). -/
def partial_update_event (db : DB) (pk : Nat) (d : EventData) : DB × Resp :=
  match db.events.find? (fun e => e.event_id == pk) with
  | none => (db, Resp.notFound (Json.obj [("error", Json.str "Event not found")]))
  | some e =>
    if eventDataValid db (some e) true d then
      let e2 := applyEventData e d
      ({ db with events := db.events.map (fun x => if x.event_id == pk then e2 else x) },
       Resp.ok (eventToJson e2))
    else (db, Resp.badRequest (Json.obj []))

/-- views.delete_event: remove the row; on_delete=CASCADE on
Booking.event removes every booking of the event. -/
def delete_event (db : DB) (pk : Nat) : DB × Resp :=
  match db.events.find? (fun e => e.event_id == pk) with
  | none => (db, Resp.notFound (Json.obj [("error", Json.str "Event not found")]))
  | some _ =>
    ({ db with
        events := db.events.filter (fun e => e.event_id != pk)
        bookings := db.bookings.filter (fun b => b.event != pk) },
     Resp.noContent (Json.obj [("message", Json.str "Event deleted successfully")]))

/-- Request body for the Venue endpoints. -/
structure VenueData where
  name : Option String
  address : Option String
  capacity : Option Nat
deriving Repr, DecidableEq

/-- VenueSerializer.is_valid: all three fields required, name from
VENUE_CHOICES. -/
def venueDataValid (d : VenueData) : Bool :=
  d.address.isSome && d.capacity.isSome &&
  (match d.name with
   | some n => VENUE_CHOICES.contains n
   | none => false)

/-- VenueSerializer output. -/
def venueToJson (v : Venue) : Json :=
  Json.obj [("venue_id", Json.num (v.venue_id : Int)),
            ("name", Json.str v.name),
            ("address", Json.str v.address),
            ("capacity", Json.num (v.capacity : Int))]

/-- views.create_venue. -/
def create_venue (db : DB) (d : VenueData) : DB × Resp :=
  if venueDataValid d then
    let v : Venue :=
      { venue_id := db.nextVenueId
        name := d.name.getD ""
        address := d.address.getD ""
        capacity := d.capacity.getD 0 }
    ({ db with venues := db.venues ++ [v], nextVenueId := db.nextVenueId + 1 },
     Resp.created (venueToJson v))
  else (db, Resp.badRequest (Json.obj []))

/-- views.get_venues. -/
def get_venues (db : DB) : Resp :=
  Resp.ok (Json.arr (db.venues.map venueToJson))

/-- views.delete_venue: remove the row; on_delete=SET_NULL on
Event.venue nulls the venue of every event that referenced it and
touches nothing else. -/
def delete_venue (db : DB) (pk : Nat) : DB × Resp :=
  match db.venues.find? (fun v => v.venue_id == pk) with
  | none => (db, Resp.notFound (Json.obj [("error", Json.str "Venue not found")]))
  | some _ =>
    ({ db with
        venues := db.venues.filter (fun v => v.venue_id != pk)
        events := db.events.map (fun e =>
          if e.venue == some pk then { e with venue := none } else e) },
     Resp.noContent (Json.obj [("message", Json.str "Venue deleted successfully")]))

/-- Request body for POST /bookings/create/ as BookingSerializer sees
it. -/
structure BookingData where
  customer : Option Nat
  event : Option Nat
  tickets_reserved : Option Nat
  status : Option String
deriving Repr, DecidableEq

/-- BookingSerializer.is_valid: customer, event and tickets_reserved
required; supplied status must be a BOOKING_STATUS_CHOICES member; both
foreign keys must exist; the unique_together (customer, event)
constraint rejects a second booking of the same event by the same
customer. -/
def bookingValid (db : DB) (d : BookingData) : Bool :=
  d.tickets_reserved.isSome &&
  (match d.customer with
   | some c => db.users.any (fun u => u.user_id == c)
   | none => false) &&
  (match d.event with
   | some ev => db.events.any (fun e => e.event_id == ev)
   | none => false) &&
  (match d.status with
   | some s => BOOKING_STATUS_CHOICES.contains s
   | none => true) &&
  !(match d.customer, d.event with
    | some c, some ev => db.bookings.any (fun b => b.customer == c && b.event == ev)
    | _, _ => false)

/-- BookingSerializer output (`all fields`). -/
def bookingToJson (b : Booking) : Json :=
  Json.obj [("booking_id", Json.num (b.booking_id : Int)),
            ("customer", Json.num (b.customer : Int)),
            ("event", Json.num (b.event : Int)),
            ("tickets_reserved", Json.num (b.tickets_reserved : Int)),
            ("status", Json.str b.status)]

/-- views.create_booking: status defaults to pending only when the field
is omitted from the request. -/
def create_booking (db : DB) (d : BookingData) : DB × Resp :=
  if bookingValid db d then
    let b : Booking :=
      { booking_id := db.nextBookingId
        customer := d.customer.getD 0
        event := d.event.getD 0
        tickets_reserved := d.tickets_reserved.getD 0
        status := d.status.getD "pending" }
    ({ db with bookings := db.bookings ++ [b], nextBookingId := db.nextBookingId + 1 },
     Resp.created (bookingToJson b))
  else (db, Resp.badRequest (Json.obj []))

/-- The organizer filter of views.get_all_bookings: the SQL join
Booking.objects.filter with event__organizer equal to the caller — the
booking's event row must name the caller as organizer. -/
def eventOrganizerIs (db : DB) (uid : Nat) (b : Booking) : Bool :=
  match db.events.find? (fun e => e.event_id == b.event) with
  | some e => e.organizer == uid
  | none => false

/-- views.get_all_bookings, the queryset it serializes: admin sees all,
organizer sees bookings of events they organize, everyone else sees
their own bookings. -/
def get_all_bookings (db : DB) (u : User) : List Booking :=
  if u.role = "admin" then db.bookings
  else if u.role = "organizer" then db.bookings.filter (eventOrganizerIs db u.user_id)
  else db.bookings.filter (fun b => b.customer == u.user_id)

/-- The response of views.get_all_bookings. -/
def get_all_bookings_view (db : DB) (u : User) : Resp :=
  Resp.ok (Json.arr ((get_all_bookings db u).map bookingToJson))

/-- The event routes of the project urls.py, lines 30 to 36. -/
inductive EventRoute where
  | listR : EventRoute
  | detailR : Nat → EventRoute
  | createR : EventRoute
  | updateR : Nat → EventRoute
  | partialR : Nat → EventRoute
  | deleteR : Nat → EventRoute
deriving Repr, DecidableEq

/-- The view functions the event routes can bind. -/
inductive ViewName where
  | getEvents : ViewName
  | getEvent : ViewName
  | createEvent : ViewName
  | updateEvent : ViewName
  | partialUpdateEvent : ViewName
  | deleteEvent : ViewName
deriving Repr, DecidableEq

/-- The bindings written in urls.py: note that the detail route
`events/<int:pk>/` is bound to views.get_events (the list view), not to
views.get_event. -/
def urlpatternsEvent : EventRoute → ViewName
  | .listR => .getEvents
  | .detailR _ => .getEvents
  | .createR => .createEvent
  | .updateR _ => .updateEvent
  | .partialR _ => .partialUpdateEvent
  | .deleteR _ => .deleteEvent

/-- The pk captured by each route's path converter, passed to the bound
view as a keyword argument. -/
def routePk : EventRoute → Option Nat
  | .listR => none
  | .detailR pk => some pk
  | .createR => none
  | .updateR pk => some pk
  | .partialR pk => some pk
  | .deleteR pk => some pk

/-- Calling a bound view with the captured arguments.  A view whose
signature lacks the pk parameter raises TypeError when dispatch passes
one (and conversely), which DRF does not catch: HTTP 500. -/
def callView (v : ViewName) (db : DB) (pk : Option Nat) (body : EventData) : DB × Resp :=
  match v, pk with
  | .getEvents, none => (db, get_events db)
  | .getEvents, some _ =>
      (db, Resp.serverError "TypeError: get_events got an unexpected keyword argument pk")
  | .getEvent, some k => (db, get_event db k)
  | .getEvent, none => (db, Resp.serverError "TypeError: get_event missing argument pk")
  | .createEvent, none => create_event db body
  | .createEvent, some _ =>
      (db, Resp.serverError "TypeError: create_event got an unexpected keyword argument pk")
  | .updateEvent, some k => update_event db k body
  | .updateEvent, none => (db, Resp.serverError "TypeError: update_event missing argument pk")
  | .partialUpdateEvent, some k => partial_update_event db k body
  | .partialUpdateEvent, none =>
      (db, Resp.serverError "TypeError: partial_update_event missing argument pk")
  | .deleteEvent, some k => delete_event db k
  | .deleteEvent, none => (db, Resp.serverError "TypeError: delete_event missing argument pk")

/-- URL dispatch for the event routes: look the route's binding up in
urlpatterns and call the bound view with the captured pk and the request
body. -/
def dispatchEvent (r : EventRoute) (db : DB) (body : EventData) : DB × Resp :=
  callView (urlpatternsEvent r) db (routePk r) body

/-! Concrete sample rows and a sample database, used to instantiate the
general theorems. -/

/-- Sample admin user. -/
def uAdmin : User :=
  { user_id := 1, name := "Admin One", email := "admin@x.com",
    password := hashPassword "adminpw", role := "admin", status := "active",
    is_active := true, is_staff := true }

/-- Sample organizer user. -/
def uOrg : User :=
  { user_id := 2, name := "Olga Organizer", email := "org@x.com",
    password := hashPassword "orgpw", role := "organizer", status := "active",
    is_active := true, is_staff := false }

/-- Sample customer user. -/
def uCust : User :=
  { user_id := 3, name := "Carl Customer", email := "cust@x.com",
    password := hashPassword "custpw", role := "customer", status := "active",
    is_active := true, is_staff := false }

/-- Sample suspended customer. -/
def uSusp : User :=
  { user_id := 4, name := "Sam Suspended", email := "susp@x.com",
    password := hashPassword "susppw", role := "customer", status := "suspended",
    is_active := true, is_staff := false }

/-- Sample venue. -/
def vPC : Venue :=
  { venue_id := 1, name := "pc", address := "Mall Road, Lahore", capacity := 500 }

/-- Sample event organized by uOrg, held at vPC. -/
def evMusic : Event :=
  { event_id := 1, title := "Music Fest", description := "A concert",
    organizer := 2, category := "music", venue := some 1,
    start_date := 20, start_time := 9, end_date := 21, end_time := 18,
    ticket_price := 100, capacity := 300, status := "upcoming" }

/-- Sample event organized by uAdmin, no venue. -/
def evTech : Event :=
  { event_id := 2, title := "Tech Meetup", description := "Talks",
    organizer := 1, category := "technology", venue := none,
    start_date := 25, start_time := 10, end_date := 25, end_time := 16,
    ticket_price := 0, capacity := 80, status := "upcoming" }

/-- Sample booking: uCust books evMusic. -/
def bk1 : Booking :=
  { booking_id := 1, customer := 3, event := 1, tickets_reserved := 2, status := "pending" }

/-- Sample booking: uSusp books evTech. -/
def bk2 : Booking :=
  { booking_id := 2, customer := 4, event := 2, tickets_reserved := 1, status := "confirmed" }

/-- The sample database. -/
def dbS : DB :=
  { users := [uAdmin, uOrg, uCust, uSusp]
    venues := [vPC]
    events := [evMusic, evTech]
    bookings := [bk1, bk2]
    nextUserId := 5, nextVenueId := 2, nextEventId := 3, nextBookingId := 3 }

/-- A request body for the Event endpoints with every field absent. -/
def emptyEventData : EventData :=
  { title := none, description := none, organizer := none, category := none,
    venue := none, start_date := none, start_time := none, end_date := none,
    end_time := none, ticket_price := none, capacity := none, status := none }

/-- An event-creation body whose end date precedes its start date, with
every other field valid for dbS. -/
def dRev : EventData :=
  { title := some "Reverse Days", description := some "Ends before it starts",
    organizer := some 2, category := some "music", venue := none,
    start_date := some 30, start_time := some 9, end_date := some 10,
    end_time := some 17, ticket_price := none, capacity := some 50, status := none }

/-- An event-creation body with a category outside CATEGORY_CHOICES. -/
def dBadCategory : EventData :=
  { dRev with title := some "Food Days", category := some "food" }

/-- An event-creation body naming a non-existent organizer. -/
def dBadOrganizer : EventData :=
  { dRev with title := some "Ghost Days", organizer := some 99 }

/-- The row that creating dRev against dbS persists. -/
def evRev : Event :=
  { event_id := 3, title := "Reverse Days", description := "Ends before it starts",
    organizer := 2, category := "music", venue := none,
    start_date := 30, start_time := 9, end_date := 10, end_time := 17,
    ticket_price := 0, capacity := 50, status := "upcoming" }

/-- A PATCH body that omits the required title field and supplies a new
description. -/
def dC5 : EventData :=
  { emptyEventData with description := some "Updated description" }

/-- A booking body duplicating bk1's (customer, event) pair. -/
def dDup : BookingData :=
  { customer := some 3, event := some 1, tickets_reserved := some 1, status := none }

/-- A valid booking body carrying an explicit status. -/
def dConf : BookingData :=
  { customer := some 4, event := some 1, tickets_reserved := some 2,
    status := some "confirmed" }

/-- A registration body reusing uCust's email address. -/
def dDupEmail : RegisterData :=
  { name := some "Another Carl", email := some "cust@x.com",
    password := some "pw123", role := some "customer" }

/-! Theorems. -/

/-- The organizer filter matches a booking exactly when the events table
holds a row with the booking's event id naming the given user as
organizer (event ids assumed unique, as for a primary-key column). -/
theorem eventOrganizerIs_iff (db : DB) (uid : Nat) (b : Booking)
    (hids : (db.events.map Event.event_id).Nodup) :
    eventOrganizerIs db uid b = true ↔
      ∃ e, e ∈ db.events ∧ e.event_id = b.event ∧ e.organizer = uid := by
  unfold eventOrganizerIs
  constructor
  · intro h
    cases hfind : db.events.find? (fun e => e.event_id == b.event) with
    | none => rw [hfind] at h; exact absurd h (by simp)
    | some e =>
      rw [hfind] at h
      have hmem := List.mem_of_find?_eq_some hfind
      have hp := List.find?_some hfind
      simp only [beq_iff_eq] at hp h
      exact ⟨e, hmem, hp, h⟩
  · rintro ⟨e, hmem, hid, horg⟩
    cases hfind : db.events.find? (fun e => e.event_id == b.event) with
    | none =>
      exact absurd (List.find?_eq_none.mp hfind e hmem) (by simp [hid])
    | some e2 =>
      have hmem2 := List.mem_of_find?_eq_some hfind
      have hp2 := List.find?_some hfind
      simp only [beq_iff_eq] at hp2
      have he2 : e2 = e :=
        List.inj_on_of_nodup_map hids hmem2 hmem (by rw [hp2, hid])
      rw [he2]
      simp [horg]

/-- Claim C1: for an authenticated caller, the booking list is exactly
the role-scoped subset — an admin sees every booking, an organizer sees
exactly the bookings whose event they organize, and any other caller
(customer included) sees exactly their own bookings. -/
theorem get_all_bookings_role_scoped (db : DB) (u : User)
    (hids : (db.events.map Event.event_id).Nodup) (b : Booking) :
    b ∈ get_all_bookings db u ↔
      b ∈ db.bookings ∧
        (if u.role = "admin" then True
         else if u.role = "organizer" then
           ∃ e, e ∈ db.events ∧ e.event_id = b.event ∧ e.organizer = u.user_id
         else b.customer = u.user_id) := by
  unfold get_all_bookings
  by_cases hadmin : u.role = "admin"
  · simp [hadmin]
  · by_cases horg : u.role = "organizer"
    · simp only [if_neg hadmin, if_pos horg]
      rw [List.mem_filter]
      constructor
      · rintro ⟨hb, hf⟩
        exact ⟨hb, (eventOrganizerIs_iff db u.user_id b hids).mp hf⟩
      · rintro ⟨hb, hex⟩
        exact ⟨hb, (eventOrganizerIs_iff db u.user_id b hids).mpr hex⟩
    · simp only [if_neg hadmin, if_neg horg]
      rw [List.mem_filter]
      simp

/-- Claim C1, witness: in the sample database the organizer's list
contains the booking for their event and not the booking for the
admin's event. -/
theorem get_all_bookings_role_scoped_witness :
    bk1 ∈ get_all_bookings dbS uOrg ∧ ¬ bk2 ∈ get_all_bookings dbS uOrg :=
  ⟨(get_all_bookings_role_scoped dbS uOrg (by decide) bk1).mpr (by decide),
   fun h => absurd ((get_all_bookings_role_scoped dbS uOrg (by decide) bk2).mp h).2
     (by decide)⟩

/-- Claim C2: login with an unknown email or a wrong password yields the
ValidationError "Invalid email or password"; correct credentials for an
active-flagged user whose status is not active yield the distinct
error "Your account is suspended"; on success the user object is the
validated data and the response carries only the public user fields
(id, name, email, role) — no password.  Email uniqueness of the users
table (its unique column constraint) is assumed. -/
theorem login_contract (db : DB) (e p : String)
    (huniq : ∀ u ∈ db.users, ∀ v ∈ db.users, u.email = v.email → u = v) :
    ((∀ u ∈ db.users, u.email ≠ e) →
        loginValidate db e p = Except.error "Invalid email or password") ∧
    (∀ u ∈ db.users, u.email = e → checkPassword p u.password = false →
        loginValidate db e p = Except.error "Invalid email or password") ∧
    (∀ u ∈ db.users, u.email = e → checkPassword p u.password = true →
        u.is_active = true → u.status ≠ "active" →
        loginValidate db e p = Except.error "Your account is suspended") ∧
    (∀ u, loginValidate db e p = Except.ok u →
        u ∈ db.users ∧ u.email = e ∧ u.status = "active" ∧
        login_view db e p = Resp.ok (Json.obj
          [("message", Json.str (capitalize u.role ++ " logged in successfully!")),
           ("user", Json.obj
             [("id", Json.num (u.user_id : Int)), ("name", Json.str u.name),
              ("email", Json.str u.email), ("role", Json.str u.role)])])) := by
  refine ⟨?_, ?_, ?_, ?_⟩
  · intro h
    have hnone : db.users.find? (fun v => v.email == e) = none :=
      List.find?_eq_none.mpr (fun x hx => by simp [h x hx])
    unfold loginValidate authenticate
    rw [hnone]
  · intro u hu he hcp
    cases hfind : db.users.find? (fun v => v.email == e) with
    | none =>
      exact absurd (List.find?_eq_none.mp hfind u hu) (by simp [he])
    | some u2 =>
      have hmem2 := List.mem_of_find?_eq_some hfind
      have hp2 := List.find?_some hfind
      simp only [beq_iff_eq] at hp2
      have he2 : u2 = u := huniq u2 hmem2 u hu (by rw [hp2, he])
      unfold loginValidate authenticate
      rw [hfind, he2]
      dsimp only
      rw [hcp]
      simp
  · intro u hu he hcp hact hst
    cases hfind : db.users.find? (fun v => v.email == e) with
    | none =>
      exact absurd (List.find?_eq_none.mp hfind u hu) (by simp [he])
    | some u2 =>
      have hmem2 := List.mem_of_find?_eq_some hfind
      have hp2 := List.find?_some hfind
      simp only [beq_iff_eq] at hp2
      have he2 : u2 = u := huniq u2 hmem2 u hu (by rw [hp2, he])
      unfold loginValidate authenticate
      rw [hfind, he2]
      dsimp only
      rw [hcp, hact]
      simp [hst]
  · intro u h
    have hres : u ∈ db.users ∧ u.email = e ∧ u.status = "active" := by
      unfold loginValidate authenticate at h
      cases hfind : db.users.find? (fun v => v.email == e) with
      | none => rw [hfind] at h; exact absurd h (by simp)
      | some u2 =>
        rw [hfind] at h
        have hmem2 := List.mem_of_find?_eq_some hfind
        have hp2 := List.find?_some hfind
        simp only [beq_iff_eq] at hp2
        split at h
        · exact absurd h (by simp)
        · rename_i u3 heq
          have hu3 : u3 = u2 := by
            dsimp only at heq
            by_cases hcp : (checkPassword p u2.password && u2.is_active) = true
            · rw [if_pos hcp] at heq
              exact (Option.some.inj heq).symm
            · rw [if_neg hcp] at heq
              exact absurd heq (by simp)
          split at h
          · exact absurd h (by simp)
          · rename_i hst
            push_neg at hst
            have huu : u2 = u := hu3 ▸ (show u3 = u by simpa using h)
            exact ⟨huu ▸ hmem2, huu ▸ hp2, huu ▸ (hu3 ▸ hst)⟩
    refine ⟨hres.1, hres.2.1, hres.2.2, ?_⟩
    unfold login_view
    rw [h]
    rfl

/-- Claim C2, witness: in the sample database the suspended user's
correct credentials are rejected with the suspension message. -/
theorem login_contract_witness :
    loginValidate dbS "susp@x.com" "susppw" = Except.error "Your account is suspended" :=
  (login_contract dbS "susp@x.com" "susppw" (by decide)).2.2.1 uSusp (by decide)
    (by decide) (by decide) (by decide) (by decide)

/-- Claim C3: creating a booking for a (customer, event) pair that
already has a booking is rejected by the unique-together validation
with the database untouched; a valid creation that omits status
persists the booking with status pending. -/
theorem create_booking_unique_and_default (db : DB) (d : BookingData) (c ev : Nat)
    (hc : d.customer = some c) (he : d.event = some ev) :
    ((∃ b ∈ db.bookings, b.customer = c ∧ b.event = ev) →
        create_booking db d = (db, Resp.badRequest (Json.obj []))) ∧
    (d.status = none → bookingValid db d = true →
        ∃ bk, (create_booking db d).1.bookings = db.bookings ++ [bk] ∧
          bk.status = "pending" ∧ bk.customer = c ∧ bk.event = ev ∧
          bk.booking_id = db.nextBookingId ∧
          (create_booking db d).2 = Resp.created (bookingToJson bk)) := by
  constructor
  · rintro ⟨b, hb, hbc, hbe⟩
    have hdup : db.bookings.any (fun x => x.customer == c && x.event == ev) = true :=
      List.any_eq_true.mpr ⟨b, hb, by simp [hbc, hbe]⟩
    have hval : bookingValid db d = false := by
      unfold bookingValid
      rw [hc, he]
      simp [hdup]
    unfold create_booking
    rw [hval]
    simp
  · intro hs hv
    refine ⟨{ booking_id := db.nextBookingId, customer := c, event := ev,
              tickets_reserved := d.tickets_reserved.getD 0, status := "pending" },
            ?_, rfl, rfl, rfl, rfl, ?_⟩ <;>
      simp [create_booking, hv, hc, he, hs]

/-- Claim C3, witness: adding a second booking of event 1 by customer 3
to the sample database (which already holds bk1) is rejected. -/
theorem create_booking_unique_and_default_witness :
    create_booking dbS dDup = (dbS, Resp.badRequest (Json.obj [])) :=
  (create_booking_unique_and_default dbS dDup 3 1 rfl rfl).1 ⟨bk1, by decide, rfl, rfl⟩

/-- Claim C10: the booking serializer exposes the status field, so a
create request that supplies status persists exactly the supplied
value; the pending default is used only when status is omitted. -/
theorem create_booking_status_passthrough (db : DB) (d : BookingData) (s : String)
    (hv : bookingValid db d = true) :
    (d.status = some s →
       (create_booking db d).1.bookings =
         db.bookings ++ [{ booking_id := db.nextBookingId, customer := d.customer.getD 0,
                           event := d.event.getD 0,
                           tickets_reserved := d.tickets_reserved.getD 0, status := s }]) ∧
    (d.status = none →
       (create_booking db d).1.bookings =
         db.bookings ++ [{ booking_id := db.nextBookingId, customer := d.customer.getD 0,
                           event := d.event.getD 0,
                           tickets_reserved := d.tickets_reserved.getD 0,
                           status := "pending" }]) := by
  constructor <;> intro hs <;> simp [create_booking, hv, hs]

/-- Claim C10, witness: creating dConf (explicit status confirmed)
against the sample database persists a confirmed booking. -/
theorem create_booking_status_passthrough_witness :
    (create_booking dbS dConf).1.bookings =
      dbS.bookings ++ [{ booking_id := 3, customer := 4, event := 1,
                         tickets_reserved := 2, status := "confirmed" }] :=
  (create_booking_status_passthrough dbS dConf "confirmed" (by decide)).1 rfl

/-- Claim C5: a full update (PUT) of an existing event that omits the
required title field fails with 400 and leaves the database unchanged;
a partial update (PATCH) of the same event omitting the same field
succeeds, keeps the title, and sets exactly the supplied fields,
leaving every omitted field at its previous value. -/
theorem event_put_vs_patch (db : DB) (pk : Nat) (e : Event) (d : EventData)
    (hfind : db.events.find? (fun x => x.event_id == pk) = some e)
    (htitle : d.title = none) :
    update_event db pk d = (db, Resp.badRequest (Json.obj [])) ∧
    (eventDataValid db (some e) true d = true →
      partial_update_event db pk d =
        ({ db with events := db.events.map fun x => if x.event_id == pk then applyEventData e d else x },
         Resp.ok (eventToJson (applyEventData e d))) ∧
      (applyEventData e d).title = e.title ∧
      (applyEventData e d).description = d.description.getD e.description ∧
      (applyEventData e d).organizer = d.organizer.getD e.organizer ∧
      (applyEventData e d).category = d.category.getD e.category ∧
      (applyEventData e d).venue = d.venue.getD e.venue ∧
      (applyEventData e d).start_date = d.start_date.getD e.start_date ∧
      (applyEventData e d).start_time = d.start_time.getD e.start_time ∧
      (applyEventData e d).end_date = d.end_date.getD e.end_date ∧
      (applyEventData e d).end_time = d.end_time.getD e.end_time ∧
      (applyEventData e d).ticket_price = d.ticket_price.getD e.ticket_price ∧
      (applyEventData e d).capacity = d.capacity.getD e.capacity ∧
      (applyEventData e d).status = d.status.getD e.status) := by
  constructor
  · have hval : eventDataValid db (some e) false d = false := by
      unfold eventDataValid eventRequiredOk
      rw [htitle]
      simp
    unfold update_event
    rw [hfind]
    dsimp only
    rw [hval]
    simp
  · intro hv
    refine ⟨?_, by simp [applyEventData, htitle], rfl, rfl, rfl, rfl, rfl, rfl,
            rfl, rfl, rfl, rfl, rfl⟩
    unfold partial_update_event
    rw [hfind]
    dsimp only
    rw [hv]
    simp

/-- Claim C5, witness: in the sample database the PUT body that omits
title is rejected without changing anything. -/
theorem event_put_vs_patch_witness :
    update_event dbS 1 dC5 = (dbS, Resp.badRequest (Json.obj [])) :=
  (event_put_vs_patch dbS 1 evMusic dC5 (by decide) rfl).1

/-- Claim C6: deleting an existing event answers 204, removes exactly
the rows with that event id from the events table, removes exactly the
bookings of that event (cascade), and leaves users and venues alone. -/
theorem delete_event_cascades (db : DB) (pk : Nat) (e : Event)
    (hfind : db.events.find? (fun x => x.event_id == pk) = some e) :
    (delete_event db pk).2 =
      Resp.noContent (Json.obj [("message", Json.str "Event deleted successfully")]) ∧
    (∀ x : Event, x ∈ (delete_event db pk).1.events ↔ x ∈ db.events ∧ x.event_id ≠ pk) ∧
    (∀ b : Booking, b ∈ (delete_event db pk).1.bookings ↔ b ∈ db.bookings ∧ b.event ≠ pk) ∧
    (delete_event db pk).1.users = db.users ∧
    (delete_event db pk).1.venues = db.venues := by
  unfold delete_event
  rw [hfind]
  refine ⟨rfl, ?_, ?_, rfl, rfl⟩ <;> intro x <;> rw [List.mem_filter] <;> simp

/-- Claim C6, witness: deleting event 1 from the sample database keeps
the booking of event 2 and drops the booking of event 1. -/
theorem delete_event_cascades_witness :
    bk2 ∈ (delete_event dbS 1).1.bookings ∧ ¬ bk1 ∈ (delete_event dbS 1).1.bookings :=
  ⟨((delete_event_cascades dbS 1 evMusic rfl).2.2.1 bk2).mpr (by decide),
   fun h => absurd (((delete_event_cascades dbS 1 evMusic rfl).2.2.1 bk1).mp h).2
     (by decide)⟩

/-- Claim C7: deleting a venue that events reference answers 204 and
removes the venue; every event that referenced it survives with venue
nulled and every other field untouched, every other event survives
unchanged, no event disappears, and users and bookings are untouched. -/
theorem delete_venue_nulls_events (db : DB) (pk : Nat) (v : Venue)
    (hfind : db.venues.find? (fun x => x.venue_id == pk) = some v) :
    (delete_venue db pk).2 =
      Resp.noContent (Json.obj [("message", Json.str "Venue deleted successfully")]) ∧
    (∀ w : Venue, w ∈ (delete_venue db pk).1.venues ↔ w ∈ db.venues ∧ w.venue_id ≠ pk) ∧
    (∀ e ∈ db.events, e.venue = some pk →
        { e with venue := none } ∈ (delete_venue db pk).1.events) ∧
    (∀ e ∈ db.events, e.venue ≠ some pk → e ∈ (delete_venue db pk).1.events) ∧
    (delete_venue db pk).1.events.length = db.events.length ∧
    (delete_venue db pk).1.users = db.users ∧
    (delete_venue db pk).1.bookings = db.bookings := by
  unfold delete_venue
  rw [hfind]
  refine ⟨rfl, ?_, ?_, ?_, by simp, rfl, rfl⟩
  · intro w
    rw [List.mem_filter]
    simp
  · intro e he hv
    have hrw : ({ e with venue := none } : Event) =
        (fun x : Event => if x.venue == some pk then { x with venue := none } else x) e := by
      simp [hv]
    rw [hrw]
    exact List.mem_map_of_mem _ he
  · intro e he hv
    have hrw : e =
        (fun x : Event => if x.venue == some pk then { x with venue := none } else x) e := by
      simp [hv]
    rw [hrw]
    exact List.mem_map_of_mem _ he

/-- Claim C7, witness: deleting venue 1 from the sample database keeps
the music event with its venue nulled. -/
theorem delete_venue_nulls_events_witness :
    ({ evMusic with venue := none } : Event) ∈ (delete_venue dbS 1).1.events :=
  (delete_venue_nulls_events dbS 1 vPC rfl).2.2.1 evMusic (by decide) rfl

/-- The hash of a password is never the password itself (the stored
column always holds the salted hash, not the raw secret). -/
theorem hashPassword_ne (p : String) : hashPassword p ≠ p := by
  intro h
  have hlen := congrArg String.length h
  rw [hashPassword, String.length_append] at hlen
  have h14 : ("pbkdf2_sha256$" : String).length = 14 := rfl
  rw [h14] at hlen
  omega

/-- Claim C9: registration is rejected (database untouched) when the
email is already taken or any of name, email, password, role is
missing; a successful registration appends one user storing the hashed
password (never the raw one), with default status active, and the
response's user object carries exactly id, name, email and role. -/
theorem register_contract (db : DB) (d : RegisterData) :
    (∀ em, d.email = some em → (∃ u ∈ db.users, u.email = em) →
        register_view db d = (db, Resp.badRequest (Json.obj []))) ∧
    ((d.name = none ∨ d.email = none ∨ d.password = none ∨ d.role = none) →
        register_view db d = (db, Resp.badRequest (Json.obj []))) ∧
    (∀ db2 j, register_view db d = (db2, Resp.created j) →
        ∃ u p, d.password = some p ∧ db2.users = db.users ++ [u] ∧
          u.password = hashPassword p ∧ u.password ≠ p ∧ u.status = "active" ∧
          u.user_id = db.nextUserId ∧
          j = Json.obj
            [("message", Json.str (capitalize u.role ++ " registered successfully!")),
             ("user", Json.obj
               [("id", Json.num (u.user_id : Int)), ("name", Json.str u.name),
                ("email", Json.str u.email), ("role", Json.str u.role)])]) := by
  refine ⟨?_, ?_, ?_⟩
  · rintro em he ⟨u, hu, hue⟩
    have hany : db.users.any (fun x => x.email == em) = true :=
      List.any_eq_true.mpr ⟨u, hu, by simp [hue]⟩
    have hval : registerValid db d = false := by
      unfold registerValid
      rw [he]
      simp [hany]
    unfold register_view
    rw [hval]
    simp
  · intro h
    have hval : registerValid db d = false := by
      unfold registerValid
      rcases h with h | h | h | h <;> rw [h] <;> simp
    unfold register_view
    rw [hval]
    simp
  · intro db2 j h
    by_cases hval : registerValid db d = true
    · have hps : d.password.isSome = true := by
        unfold registerValid at hval
        simp only [Bool.and_eq_true] at hval
        exact hval.1.2
      obtain ⟨p, hp⟩ := Option.isSome_iff_exists.mp hps
      unfold register_view at h
      rw [if_pos hval] at h
      obtain ⟨hdb2, hj⟩ := Prod.mk.injEq .. ▸ h
      refine ⟨{ user_id := db.nextUserId, name := d.name.getD "",
                email := d.email.getD "", password := hashPassword (d.password.getD ""),
                role := d.role.getD "", status := "active",
                is_active := true, is_staff := false },
              p, hp, ?_, by rw [hp]; rfl, ?_, rfl, rfl, ?_⟩
      · rw [← hdb2]
      · rw [hp]
        exact hashPassword_ne p
      · injection hj with hbody
        rw [← hbody]
        rfl
    · unfold register_view at h
      rw [if_neg hval] at h
      exact absurd (Prod.mk.injEq .. ▸ h).2 (by simp)

/-- Claim C9, witness: registering with uCust's email against the
sample database is rejected and changes nothing. -/
theorem register_contract_witness :
    register_view dbS dDupEmail = (dbS, Resp.badRequest (Json.obj [])) :=
  (register_contract dbS dDupEmail).1 "cust@x.com" rfl ⟨uCust, by decide, rfl⟩

/-- Claim C4 (on the routing slip): with no event 99 in the sample
database, the update, partial-update and delete routes and the intended
get_event view all answer 404 leaving the database unchanged, but the
single-event route events/99/ — bound in urls.py to the list view
get_events, which takes no pk — raises TypeError (HTTP 500) instead of
the claimed 404. -/
theorem event_missing_id_routes :
    get_event dbS 99 = Resp.notFound (Json.obj [("error", Json.str "Event not found")]) ∧
    dispatchEvent (.updateR 99) dbS emptyEventData =
      (dbS, Resp.notFound (Json.obj [("error", Json.str "Event not found")])) ∧
    dispatchEvent (.partialR 99) dbS emptyEventData =
      (dbS, Resp.notFound (Json.obj [("error", Json.str "Event not found")])) ∧
    dispatchEvent (.deleteR 99) dbS emptyEventData =
      (dbS, Resp.notFound (Json.obj [("error", Json.str "Event not found")])) ∧
    dispatchEvent (.detailR 99) dbS emptyEventData =
      (dbS, Resp.serverError "TypeError: get_events got an unexpected keyword argument pk") ∧
    urlpatternsEvent (.detailR 99) = ViewName.getEvents :=
  ⟨rfl, rfl, rfl, rfl, rfl, rfl⟩

/-- Claim C8: event creation rejects a category outside the enum and a
non-existent organizer, but applies no cross-validation of the dates —
the concrete body dRev, whose end date 10 precedes its start date 30,
is persisted and returned with the generated id. -/
theorem event_create_validation_no_date_check :
    create_event dbS dBadCategory = (dbS, Resp.badRequest (Json.obj [])) ∧
    create_event dbS dBadOrganizer = (dbS, Resp.badRequest (Json.obj [])) ∧
    evRev.end_date < evRev.start_date ∧
    create_event dbS dRev =
      ({ dbS with events := dbS.events ++ [evRev], nextEventId := 4 },
       Resp.created (eventToJson evRev)) ∧
    evRev.event_id = dbS.nextEventId :=
  ⟨rfl, rfl, by decide, rfl, rfl⟩

end EventMngt
